import Mathlib

/-!
Shallow embedding of the AgriPlanum agronomic calculators (script.js,
docs/js/map.js, utils.js): the cycle-timeline calculator, the planting-window
classifier, the sowing-density calculator and the soil-adequacy analyzer,
together with proofs of the specified properties.

Dates are modelled as timezone-naive Gregorian calendar dates, matching the
source's use of `Date.setDate(getDate() + n)`, which performs calendar-day
addition with month/year normalization.
-/

namespace AgriPlanum

/-- A timezone-naive Gregorian calendar date, as manipulated by the source's
`Date` objects (year, month 1–12, day 1–31). -/
structure Date where
  year : Nat
  month : Nat
  day : Nat
deriving DecidableEq, Repr

/-- Gregorian leap-year rule, as implemented by JavaScript `Date`. -/
def isLeap (y : Nat) : Bool :=
  (y % 4 == 0 && y % 100 != 0) || y % 400 == 0

/-- Number of days in month `m` of year `y` (Gregorian). -/
def daysInMonth (y m : Nat) : Nat :=
  if m = 2 then (if isLeap y then 29 else 28)
  else if m = 4 ∨ m = 6 ∨ m = 9 ∨ m = 11 then 30
  else 31

/-- A date is valid when its month and day are in range (year ≥ 1). -/
def Date.valid (d : Date) : Prop :=
  1 ≤ d.year ∧ 1 ≤ d.month ∧ d.month ≤ 12 ∧ 1 ≤ d.day ∧ d.day ≤ daysInMonth d.year d.month

instance (d : Date) : Decidable d.valid := by
  unfold Date.valid
  exact inferInstance

/-- The successor calendar day, normalizing month and year overflow exactly as
JavaScript `setDate` does for a one-day increment. -/
def nextDay (d : Date) : Date :=
  if d.day < daysInMonth d.year d.month then ⟨d.year, d.month, d.day + 1⟩
  else if d.month < 12 then ⟨d.year, d.month + 1, 1⟩
  else ⟨d.year + 1, 1, 1⟩

/-- Calendar-day addition: the source's `currentDate.setDate(currentDate.getDate() + n)`
is `n` applications of the successor day. -/
def addDays (d : Date) (n : Nat) : Date :=
  nextDay^[n] d

/-- Days of year `y` that precede month `m` (0 for January). -/
def daysBeforeMonth (y : Nat) : Nat → Nat
  | 0 => 0
  | 1 => 0
  | Nat.succ m => daysBeforeMonth y m + daysInMonth y m

/-- Number of leap years strictly before year `y` (for `y ≥ 1`). -/
def leapsBefore (y : Nat) : Nat :=
  (y - 1) / 4 + (y - 1) / 400 - (y - 1) / 100

/-- Linear day count of a date (days since the epoch 0001-01-01); the
"measured in calendar days" difference of two dates is the difference of
their `toRata` values. -/
def toRata (d : Date) : Nat :=
  365 * (d.year - 1) + leapsBefore d.year + daysBeforeMonth d.year d.month + (d.day - 1)

theorem daysBeforeMonth_succ (y m : Nat) (hm : 1 ≤ m) :
    daysBeforeMonth y (m + 1) = daysBeforeMonth y m + daysInMonth y m := by
  match m, hm with
  | Nat.succ k, _ => rfl

theorem daysBeforeMonth_twelve (y : Nat) :
    daysBeforeMonth y 12 = 334 + (if isLeap y then 1 else 0) := by
  cases h : isLeap y <;>
    simp [daysBeforeMonth, daysInMonth, h]

theorem isLeap_iff (y : Nat) :
    isLeap y = true ↔ ((y % 4 = 0 ∧ y % 100 ≠ 0) ∨ y % 400 = 0) := by
  simp [isLeap]

theorem leapsBefore_succ (y : Nat) (hy : 1 ≤ y) :
    leapsBefore (y + 1) = leapsBefore y + (if isLeap y then 1 else 0) := by
  obtain ⟨k, rfl⟩ : ∃ k, y = k + 1 := ⟨y - 1, by omega⟩
  unfold leapsBefore
  simp only [Nat.add_sub_cancel]
  by_cases hc : ((k + 1) % 4 = 0 ∧ (k + 1) % 100 ≠ 0) ∨ (k + 1) % 400 = 0
  · rw [if_pos ((isLeap_iff _).mpr hc)]
    omega
  · rw [if_neg (fun h => hc ((isLeap_iff _).mp h))]
    omega

theorem daysInMonth_twelve (y : Nat) : daysInMonth y 12 = 31 := by
  simp [daysInMonth]

theorem daysInMonth_pos (y m : Nat) : 1 ≤ daysInMonth y m := by
  unfold daysInMonth
  split
  · split <;> omega
  · split <;> omega

theorem nextDay_valid (d : Date) (h : d.valid) : (nextDay d).valid := by
  obtain ⟨hy, hm1, hm12, hd1, hdm⟩ := h
  have p1 := daysInMonth_pos d.year (d.month + 1)
  have p2 := daysInMonth_pos (d.year + 1) 1
  unfold nextDay
  by_cases h1 : d.day < daysInMonth d.year d.month
  · rw [if_pos h1]
    unfold Date.valid
    dsimp only
    omega
  · rw [if_neg h1]
    by_cases h2 : d.month < 12
    · rw [if_pos h2]
      unfold Date.valid
      dsimp only
      omega
    · rw [if_neg h2]
      unfold Date.valid
      dsimp only
      omega

theorem toRata_nextDay (d : Date) (h : d.valid) : toRata (nextDay d) = toRata d + 1 := by
  obtain ⟨hy, hm1, hm12, hd1, hdm⟩ := h
  unfold nextDay
  by_cases h1 : d.day < daysInMonth d.year d.month
  · rw [if_pos h1]
    unfold toRata
    dsimp only
    omega
  · rw [if_neg h1]
    have hde : d.day = daysInMonth d.year d.month := by omega
    by_cases h2 : d.month < 12
    · rw [if_pos h2]
      unfold toRata
      dsimp only
      rw [daysBeforeMonth_succ d.year d.month hm1]
      omega
    · rw [if_neg h2]
      have hm : d.month = 12 := by omega
      unfold toRata
      dsimp only
      rw [leapsBefore_succ d.year hy, hm, daysBeforeMonth_twelve]
      rw [hm, daysInMonth_twelve] at hde
      simp only [daysBeforeMonth]
      omega

theorem toRata_addDays (d : Date) (h : d.valid) (n : Nat) :
    toRata (addDays d n) = toRata d + n ∧ (addDays d n).valid := by
  induction n with
  | zero => exact ⟨rfl, h⟩
  | succ k ih =>
    have hstep : addDays d (k + 1) = nextDay (addDays d k) := by
      unfold addDays
      exact Function.iterate_succ_apply' nextDay k d
    rw [hstep]
    refine ⟨?_, nextDay_valid _ ih.2⟩
    rw [toRata_nextDay _ ih.2, ih.1, Nat.add_assoc]

theorem addDays_addDays (d : Date) (a b : Nat) :
    addDays (addDays d a) b = addDays d (a + b) := by
  unfold addDays
  rw [Nat.add_comm a b, Function.iterate_add_apply]

/-! ## Planting-window classifier (utils.js `getPlantingSeason` / `isBetween`,
duplicated in script.js lines 300–318) -/

/-- A month/day pair, the parsed form of the source's `'MM-DD'` window bound
strings (`preferential_start.split('-').map(Number)`). -/
structure MonthDay where
  month : Nat
  day : Nat
deriving DecidableEq, Repr

/-- A region's planting calendar, one entry of the source's `zoningData` table. -/
structure RegionCalendar where
  preferential_start : MonthDay
  preferential_end : MonthDay
  tolerated_start : MonthDay
  tolerated_end : MonthDay
deriving DecidableEq, Repr

/-- The outcomes of `getPlantingSeason`: the three classification badges plus
the `'Region not selected'` fallback badge returned by utils.js when no region
is resolved. -/
inductive Season where
  | preferential
  | tolerated
  | notRecommended
  | regionNotSelected
deriving DecidableEq, Repr

/-- The CSS class of the badge rendered for each outcome: the source renders
`Region not selected` with the same `badge not-recommended` class as a normal
not-recommended classification. -/
def badgeClass : Season → String
  | .preferential => "badge preferential"
  | .tolerated => "badge tolerated"
  | .notRecommended => "badge not-recommended"
  | .regionNotSelected => "badge not-recommended"

/-- The text of the badge rendered for each outcome (utils.js wording). -/
def badgeText : Season → String
  | .preferential => "Preferential Window"
  | .tolerated => "Tolerated Window"
  | .notRecommended => "Not Recommended"
  | .regionNotSelected => "Region not selected"

/-- utils.js `isBetween`: encodes dates as `month*100 + day` and handles
windows that wrap across the year boundary (`startNum > endNum`). -/
def isBetween (month day : Nat) (s e : MonthDay) : Bool :=
  let dateNum := month * 100 + day
  let startNum := s.month * 100 + s.day
  let endNum := e.month * 100 + e.day
  if startNum > endNum then decide (dateNum ≥ startNum) || decide (dateNum ≤ endNum)
  else decide (dateNum ≥ startNum) && decide (dateNum ≤ endNum)

/-- utils.js `getPlantingSeason`: preferential window first, then tolerated,
else not recommended; an absent region yields the fallback badge. -/
def getPlantingSeason (month day : Nat) (region : Option RegionCalendar) : Season :=
  match region with
  | none => .regionNotSelected
  | some r =>
    if isBetween month day r.preferential_start r.preferential_end then .preferential
    else if isBetween month day r.tolerated_start r.tolerated_end then .tolerated
    else .notRecommended

/-- Window membership exactly as the spec words it: for encoded bounds
`start ≤ end` the date is inside iff `start ≤ date ≤ end`; for wrapping bounds
(`start > end`) iff `date ≥ start ∨ date ≤ end`. Stated over encoded numbers
to compare against the source's `isBetween`. -/
def inWindow (dateNum startNum endNum : Nat) : Prop :=
  if startNum ≤ endNum then startNum ≤ dateNum ∧ dateNum ≤ endNum
  else dateNum ≥ startNum ∨ dateNum ≤ endNum

instance (a b c : Nat) : Decidable (inWindow a b c) := by
  unfold inWindow
  exact inferInstance

/-- Encoding of a month/day as used by `isBetween`. -/
def encodeDate (month day : Nat) : Nat := month * 100 + day

/-- Encoding of a window bound. -/
def encodeMD (md : MonthDay) : Nat := md.month * 100 + md.day

theorem isBetween_iff_inWindow (month day : Nat) (s e : MonthDay) :
    isBetween month day s e = true ↔
      inWindow (encodeDate month day) (encodeMD s) (encodeMD e) := by
  unfold isBetween inWindow encodeDate encodeMD
  dsimp only
  by_cases h : s.month * 100 + s.day ≤ e.month * 100 + e.day
  · rw [if_neg (by omega), if_pos h]
    simp
  · rw [if_pos (by omega), if_neg h]
    simp

/-! ## Cycle-timeline calculator (script.js `calculateButton` handler,
docs/js/map.js `handleCycleCalculation`) -/

/-- One growth stage of a variety: a named phenological period with its
duration in days (one entry of `cultivar.stages`). -/
structure Stage where
  name : String
  duration : Nat
deriving DecidableEq, Repr

/-- One line of the development timeline rendered by the source: stage name,
stage start (the cursor before the stage), stage end (the cursor after adding
the duration), and the duration. -/
structure TimelineEntry where
  stageName : String
  startDate : Date
  endDate : Date
  durationDays : Nat
deriving DecidableEq, Repr

/-- The source's `totalCycleDays`:
`Object.values(cultivar.stages).reduce((acc, days) => acc + days, 0)`. -/
def totalCycleDays (stages : List Stage) : Nat :=
  stages.foldl (fun acc s => acc + s.duration) 0

/-- The source's timeline loop: for each stage the start is the current
cursor, the cursor advances by the stage duration, the end is the new cursor;
returns the entries and the final cursor (the harvest date). -/
def buildTimeline : Date → List Stage → List TimelineEntry × Date
  | start, [] => ([], start)
  | start, s :: rest =>
    ((⟨s.name, start, addDays start s.duration, s.duration⟩ : TimelineEntry)
        :: (buildTimeline (addDays start s.duration) rest).1,
      (buildTimeline (addDays start s.duration) rest).2)

/-- The harvest date: the cursor value after the final stage. -/
def harvestDate (start : Date) (stages : List Stage) : Date :=
  (buildTimeline start stages).2

/-- The structured result assembled by the cycle handler: the planting-season
badge, the total cycle days, the per-stage timeline, and the harvest date. -/
structure CycleResult where
  season : Season
  totalCycleDays : Nat
  timeline : List TimelineEntry
  harvestDate : Date
deriving DecidableEq, Repr

/-- Outcome of the cycle handler: the error message shown via `showError`, or
the rendered result. -/
inductive CycleOutcome where
  | error (msg : String)
  | result (r : CycleResult)
deriving DecidableEq, Repr

/-- The `calculateButton` click handler of script.js: an unparseable or empty
planting date (modelled as `none`) shows an error; otherwise the season is
classified and the timeline walked. There is no guard on empty stages. -/
def handleCycleCalculation (startDate : Option Date) (stages : List Stage)
    (region : Option RegionCalendar) : CycleOutcome :=
  match startDate with
  | none => .error "Invalid planting date. Please use the date picker."
  | some d =>
    .result ⟨getPlantingSeason d.month d.day region, totalCycleDays stages,
      (buildTimeline d stages).1, (buildTimeline d stages).2⟩

theorem totalCycleDays_eq_sum (stages : List Stage) :
    totalCycleDays stages = (stages.map Stage.duration).sum := by
  have h : ∀ (l : List Stage) (acc : Nat),
      l.foldl (fun a s => a + s.duration) acc = acc + (l.map Stage.duration).sum := by
    intro l
    induction l with
    | nil => intro acc; simp
    | cons x xs ih =>
      intro acc
      simp [List.foldl_cons, ih, Nat.add_assoc]
  simpa [totalCycleDays] using h stages 0

theorem buildTimeline_snd (stages : List Stage) : ∀ start : Date,
    (buildTimeline start stages).2 = addDays start ((stages.map Stage.duration).sum) := by
  induction stages with
  | nil =>
    intro start
    simp [buildTimeline, addDays]
  | cons x xs ih =>
    intro start
    simp only [buildTimeline, List.map_cons, List.sum_cons]
    rw [ih, addDays_addDays]

/-! ## Sowing-density calculator (script.js `calculateSowingBtn` handler,
docs/js/map.js `handleSowingCalculation`)

Numeric inputs come through `parseFloat`; a value that is absent or
non-numeric parses to `NaN`, modelled as `none`. JavaScript treats both `0`
and `NaN` as falsy in the `!area || !germinationRate` guard. Arithmetic on a
missing (`NaN`) population propagates, and `Math.ceil(NaN)` is `NaN`,
modelled as a `none` seed count. -/

/-- Outcome of the sowing handler: the error message shown via `showError`,
or the displayed seed count (`none` when the arithmetic produced `NaN`). -/
inductive SowingOutcome where
  | error (msg : String)
  | seeds (count : Option Int)
deriving DecidableEq, Repr

/-- The source's field-condition adjustment: `1.05` for `'average'`, `1.10`
for `'poor'`, and the initial `1.0` for every other value of the select. -/
def conditionFactor (conditions : String) : ℚ :=
  if conditions = "average" then 1.05
  else if conditions = "poor" then 1.10
  else 1

/-- The `calculateSowingBtn` click handler: guard `!area || !germinationRate`
(falsy on `0`/`NaN`), then
`ceil(area * population * (100 / germinationRate) * conditionFactor)`. -/
def calculateSowing (area population germinationRate : Option ℚ)
    (conditions : String) : SowingOutcome :=
  match area, germinationRate with
  | some a, some g =>
    if a = 0 ∨ g = 0 then .error "Please fill in all fields correctly."
    else
      match population with
      | some pop => .seeds (some ⌈a * pop * (100 / g) * conditionFactor conditions⌉)
      | none => .seeds none
  | _, _ => .error "Please fill in all fields correctly."

/-- True on the error outcome (the `showError` path). -/
def SowingOutcome.isErr : SowingOutcome → Bool
  | .error _ => true
  | .seeds _ => false

/-! ## Soil-adequacy analyzer (script.js `analyzeSoilBtn` handler,
docs/js/map.js `handleSoilAnalysis` / `createReportLine`) -/

/-- Status class attached to a report line. -/
inductive Status where
  | low
  | ok
  | high
deriving DecidableEq, Repr

/-- The shape of the ideal-range description rendered in a report line:
`range lo hi` stands for the source's string `` `${idealMin} - ${idealMax}` ``,
`above lo` for `` `> ${idealMin}` ``, and `below lo` for `` `< ${idealMin}` ``. -/
inductive IdealText where
  | range (lo hi : ℚ)
  | above (lo : ℚ)
  | below (lo : ℚ)
deriving DecidableEq, Repr

/-- One rendered line of the soil report. -/
structure ReportLine where
  label : String
  unit : String
  value : ℚ
  idealText : IdealText
  status : Status
deriving DecidableEq, Repr

/-- The source's `createReportLine`. The JS body mutates `status` in
sequence (`ok`, then `low` if `value < idealMin`, then `high` if
`value > idealMax`), so with both bounds defined the final status is `high`
when `value > idealMax`, else `low` when `value < idealMin`, else `ok`. -/
def createReportLine (label unit : String) (value idealMin : ℚ)
    (idealMax : Option ℚ) (isReversed : Bool) : ReportLine :=
  match idealMax with
  | some mx =>
    ⟨label, unit, value, .range idealMin mx,
      if value > mx then .high else if value < idealMin then .low else .ok⟩
  | none =>
    if isReversed then
      ⟨label, unit, value, .below idealMin,
        if value > idealMin then .high else .ok⟩
    else
      ⟨label, unit, value, .above idealMin,
        if value < idealMin then .low else .ok⟩

/-- The eleven measured soil values gathered by the handler; each is the
`parseFloat` of one input field, `none` standing for `NaN` (the field absent
or non-numeric). -/
structure SoilInputs where
  ph : Option ℚ
  v : Option ℚ
  al : Option ℚ
  p : Option ℚ
  k : Option ℚ
  ca : Option ℚ
  mg : Option ℚ
  s : Option ℚ
  b : Option ℚ
  zn : Option ℚ
  n : Option ℚ
deriving DecidableEq, Repr

/-- A variety's ideal soil table (`cultivar.soil`): pH carries both bounds,
aluminum carries a `max` used as a reversed ceiling, the rest carry a `min`. -/
structure IdealSoil where
  phMin : ℚ
  phMax : ℚ
  vPercentMin : ℚ
  alCmolcMax : ℚ
  pPpmMin : ℚ
  kPpmMin : ℚ
  caCmolcMin : ℚ
  mgCmolcMin : ℚ
  sPpmMin : ℚ
  bPpmMin : ℚ
  znPpmMin : ℚ
  nPpmMin : ℚ
deriving DecidableEq, Repr

/-- The source's guard `Object.values(inputs).some(v => isNaN(v))`: true
when any of the eleven inputs failed to parse. -/
def hasInvalidInput (i : SoilInputs) : Bool :=
  i.ph.isNone || i.v.isNone || i.al.isNone || i.p.isNone || i.k.isNone ||
  i.ca.isNone || i.mg.isNone || i.s.isNone || i.b.isNone || i.zn.isNone ||
  i.n.isNone

/-- Outcome of the soil handler: the error line shown via `showError`, or the
full eleven-line report. -/
inductive SoilOutcome where
  | error (msg : String)
  | report (lines : List ReportLine)
deriving DecidableEq, Repr

/-- The `analyzeSoilBtn` click handler: the NaN guard first (all-or-nothing),
then the eleven `createReportLine` calls in the source's order. In the
non-error branch every input is known to be `some`, so `Option.getD 0` reads
the parsed value. Aluminum is passed `ideal.al_cmolc.max` as the threshold
with `isReversed = true`; omitted JS arguments (`idealMax`, `isReversed`)
are `undefined`, modelled as `none` / `false`. -/
def analyzeSoil (ideal : IdealSoil) (i : SoilInputs) : SoilOutcome :=
  if hasInvalidInput i then
    .error "Please select a variety and enter valid values in all fields."
  else
    .report [
      createReportLine "pH (CaCl2)" "" (i.ph.getD 0) ideal.phMin (some ideal.phMax) false,
      createReportLine "Base Saturation (V%)" "%" (i.v.getD 0) ideal.vPercentMin none false,
      createReportLine "Aluminum (Al3+)" "cmolc" (i.al.getD 0) ideal.alCmolcMax none true,
      createReportLine "Phosphorus (P)" "ppm" (i.p.getD 0) ideal.pPpmMin none false,
      createReportLine "Potassium (K)" "ppm" (i.k.getD 0) ideal.kPpmMin none false,
      createReportLine "Calcium (Ca)" "cmolc" (i.ca.getD 0) ideal.caCmolcMin none false,
      createReportLine "Magnesium (Mg)" "cmolc" (i.mg.getD 0) ideal.mgCmolcMin none false,
      createReportLine "Sulfur (S)" "ppm" (i.s.getD 0) ideal.sPpmMin none false,
      createReportLine "Boron (B)" "ppm" (i.b.getD 0) ideal.bPpmMin none false,
      createReportLine "Zinc (Zn)" "ppm" (i.zn.getD 0) ideal.znPpmMin none false,
      createReportLine "Nitrogen (N)" "ppm" (i.n.getD 0) ideal.nPpmMin none false]

/-! ## Concrete reference data used by the examples -/

/-- The growth stages of the `'tmg 84 b3xf'` variety from `cottonVarieties`. -/
def tmg84Stages : List Stage :=
  [⟨"Emergence to First Square (V0 to B1/B3)", 35⟩,
   ⟨"First Square to First Flower (B1/B3 to F1)", 25⟩,
   ⟨"Flowering Period (F1 to FN)", 40⟩,
   ⟨"Boll Development & Maturation (C1 to CN)", 50⟩]

/-- The ideal soil table of the `'tmg 84 b3xf'` variety. -/
def tmg84Soil : IdealSoil :=
  ⟨6.0, 6.5, 60, 0.3, 20, 150, 2.5, 0.8, 10, 0.5, 1.2, 100⟩

/-- The `'mt-south'` entry of `zoningData`. -/
def mtSouth : RegionCalendar :=
  ⟨⟨1, 1⟩, ⟨1, 31⟩, ⟨12, 15⟩, ⟨2, 15⟩⟩

/-- A calendar whose tolerated window wraps the year boundary
(`tolerated_start = (12,15)`, `tolerated_end = (1,31)`, as in the spec's wrap
example) and whose preferential window (September) contains none of the
tested dates. -/
def wrapCal : RegionCalendar :=
  ⟨⟨9, 1⟩, ⟨9, 30⟩, ⟨12, 15⟩, ⟨1, 31⟩⟩

/-! ## Claims -/

/-- C1: for every variety whose growth stages are non-empty with positive
durations and every valid start date, the cycle handler returns a result whose
`totalCycleDays` equals the sum of all stage durations, and whose harvest date
lies exactly `totalCycleDays` calendar days after the start date (so harvest
minus start, measured in calendar days, equals `totalCycleDays`). -/
theorem C1_timeline_additivity (start : Date) (stages : List Stage)
    (region : Option RegionCalendar) (hv : start.valid)
    (hne : stages ≠ []) (hpos : ∀ s ∈ stages, 0 < s.duration) :
    ∃ r : CycleResult,
      handleCycleCalculation (some start) stages region = .result r ∧
      r.totalCycleDays = (stages.map Stage.duration).sum ∧
      toRata r.harvestDate = toRata start + r.totalCycleDays ∧
      toRata r.harvestDate - toRata start = r.totalCycleDays := by
  have hb := buildTimeline_snd stages start
  have ht := (toRata_addDays start hv ((stages.map Stage.duration).sum)).1
  have hr : toRata (buildTimeline start stages).2 =
      toRata start + totalCycleDays stages := by
    rw [hb, ht, totalCycleDays_eq_sum]
  refine ⟨_, rfl, ?_, ?_, ?_⟩ <;> dsimp only
  · exact totalCycleDays_eq_sum stages
  · exact hr
  · omega

/-- Witness for C1: the TMG 84 B3XF stages, start 2025-01-01, region
mt-south. -/
theorem C1_timeline_additivity_witness :
    ∃ r : CycleResult,
      handleCycleCalculation (some ⟨2025, 1, 1⟩) tmg84Stages (some mtSouth) = .result r ∧
      r.totalCycleDays = (tmg84Stages.map Stage.duration).sum ∧
      toRata r.harvestDate = toRata ⟨2025, 1, 1⟩ + r.totalCycleDays ∧
      toRata r.harvestDate - toRata ⟨2025, 1, 1⟩ = r.totalCycleDays :=
  C1_timeline_additivity ⟨2025, 1, 1⟩ tmg84Stages (some mtSouth)
    (by decide) (by decide) (by decide)

set_option maxRecDepth 10000 in
/-- C2 counterexample: with stages [(A,35),(B,25),(C,40),(D,50)] and start
date 2025-01-01, calendar-day addition puts the harvest on 2025-05-31 (150
days after the start), not on 2025-06-20 as the claim states. -/
theorem C2_timeline_example_counterexample :
    harvestDate ⟨2025, 1, 1⟩ tmg84Stages ≠ ⟨2025, 6, 20⟩ := by decide

set_option maxRecDepth 10000 in
/-- C2 amended: with the TMG 84 stages [(A,35),(B,25),(C,40),(D,50)] and
start date 2025-01-01, stage A ends on 2025-02-05 and the harvest date is
2025-05-31, exactly 150 days after the start by calendar-day addition with
February 2025 having 28 days. -/
theorem C2_timeline_example :
    handleCycleCalculation (some ⟨2025, 1, 1⟩) tmg84Stages (some mtSouth) =
      .result ⟨.preferential, 150,
        [⟨"Emergence to First Square (V0 to B1/B3)", ⟨2025, 1, 1⟩, ⟨2025, 2, 5⟩, 35⟩,
         ⟨"First Square to First Flower (B1/B3 to F1)", ⟨2025, 2, 5⟩, ⟨2025, 3, 2⟩, 25⟩,
         ⟨"Flowering Period (F1 to FN)", ⟨2025, 3, 2⟩, ⟨2025, 4, 11⟩, 40⟩,
         ⟨"Boll Development & Maturation (C1 to CN)", ⟨2025, 4, 11⟩, ⟨2025, 5, 31⟩, 50⟩],
        ⟨2025, 5, 31⟩⟩ ∧
    toRata ⟨2025, 5, 31⟩ - toRata ⟨2025, 1, 1⟩ = 150 := by decide

/-- C7 counterexample: with empty growth stages and start 2025-01-01 the
handler returns a normal zero-length result with harvestDate equal to the
start date and totalCycleDays = 0, instead of failing with an
EmptyVarietyError. -/
theorem C7_empty_variety_counterexample :
    handleCycleCalculation (some ⟨2025, 1, 1⟩) [] (some mtSouth) =
      .result ⟨.preferential, 0, [], ⟨2025, 1, 1⟩⟩ := by decide

/-- C7 amended: for every start date and region, empty growth stages produce
a zero-length timeline with harvestDate equal to the start date and
totalCycleDays = 0; no error is signalled (the handler has no empty-stages
guard). -/
theorem C7_empty_variety (start : Date) (region : Option RegionCalendar) :
    handleCycleCalculation (some start) [] region =
      .result ⟨getPlantingSeason start.month start.day region, 0, [], start⟩ := rfl

/-- C9 counterexample: with no region calendar resolved, the classifier
returns the `Region not selected` fallback badge through its normal result
channel — rendered with the very CSS class of the NotRecommended
classification — rather than signalling a MissingRegionError. -/
theorem C9_missing_region_counterexample :
    getPlantingSeason 6 1 none = .regionNotSelected ∧
    badgeClass .regionNotSelected = badgeClass .notRecommended ∧
    badgeText .regionNotSelected = "Region not selected" := by decide

/-- C9 amended: for every month and day, an absent region calendar makes the
classifier return the silent `Region not selected` fallback badge (a fourth
outcome next to the three classifications); no MissingRegionError exists in
the code. -/
theorem C9_missing_region (month day : Nat) :
    getPlantingSeason month day none = .regionNotSelected := rfl

/-- C3: for every month 1–12, day 1–31 and calendar, the classifier returns
Preferential exactly when the encoded date (month*100+day) lies in the
preferential window, else Tolerated exactly when it lies in the tolerated
window, else NotRecommended, where window membership follows the spec's
wrap rule; and for the wrap calendar with tolerated (12,15)–(1,31) whose
preferential window contains none of the tested dates, (12,20) and (1,10)
classify Tolerated and (6,1) NotRecommended. -/
theorem C3_planting_window_classification :
    (∀ (m d : Nat) (cal : RegionCalendar), 1 ≤ m → m ≤ 12 → 1 ≤ d → d ≤ 31 →
      ((getPlantingSeason m d (some cal) = .preferential ↔
          inWindow (encodeDate m d) (encodeMD cal.preferential_start)
            (encodeMD cal.preferential_end)) ∧
       (getPlantingSeason m d (some cal) = .tolerated ↔
          (¬ inWindow (encodeDate m d) (encodeMD cal.preferential_start)
              (encodeMD cal.preferential_end) ∧
            inWindow (encodeDate m d) (encodeMD cal.tolerated_start)
              (encodeMD cal.tolerated_end))) ∧
       (getPlantingSeason m d (some cal) = .notRecommended ↔
          (¬ inWindow (encodeDate m d) (encodeMD cal.preferential_start)
              (encodeMD cal.preferential_end) ∧
            ¬ inWindow (encodeDate m d) (encodeMD cal.tolerated_start)
              (encodeMD cal.tolerated_end))))) ∧
    (¬ inWindow (encodeDate 12 20) (encodeMD wrapCal.preferential_start)
        (encodeMD wrapCal.preferential_end) ∧
      ¬ inWindow (encodeDate 1 10) (encodeMD wrapCal.preferential_start)
        (encodeMD wrapCal.preferential_end) ∧
      ¬ inWindow (encodeDate 6 1) (encodeMD wrapCal.preferential_start)
        (encodeMD wrapCal.preferential_end) ∧
      getPlantingSeason 12 20 (some wrapCal) = .tolerated ∧
      getPlantingSeason 1 10 (some wrapCal) = .tolerated ∧
      getPlantingSeason 6 1 (some wrapCal) = .notRecommended) := by
  constructor
  · intro m d cal hm1 hm2 hd1 hd2
    have hpi := isBetween_iff_inWindow m d cal.preferential_start cal.preferential_end
    have hti := isBetween_iff_inWindow m d cal.tolerated_start cal.tolerated_end
    cases hp : isBetween m d cal.preferential_start cal.preferential_end <;>
      cases ht : isBetween m d cal.tolerated_start cal.tolerated_end <;>
        simp_all [getPlantingSeason]
  · decide

/-- Witness for C3's quantified part, at month 12 day 20 with the wrap
calendar. -/
theorem C3_planting_window_classification_witness :
    getPlantingSeason 12 20 (some wrapCal) = .tolerated ↔
      (¬ inWindow (encodeDate 12 20) (encodeMD wrapCal.preferential_start)
          (encodeMD wrapCal.preferential_end) ∧
        inWindow (encodeDate 12 20) (encodeMD wrapCal.tolerated_start)
          (encodeMD wrapCal.tolerated_end)) :=
  (C3_planting_window_classification.1 12 20 wrapCal
    (by decide) (by decide) (by decide) (by decide)).2.1

/-- C4: the status assigned by `createReportLine` for the three descriptor
shapes — both bounds (well-formed, min ≤ max): low iff value < min, high iff
value > max, else ok; only min, not reversed: low iff value < min, else ok;
only min, reversed: high iff value > min, else ok — and the ideal-range
description carried is respectively `min - max`, `> min`, `< min`. -/
theorem C4_report_line_semantics (label unit : String) (value idealMin : ℚ) :
    (∀ (mx : ℚ) (r : Bool), idealMin ≤ mx →
      (((createReportLine label unit value idealMin (some mx) r).status = .low ↔
          value < idealMin) ∧
        ((createReportLine label unit value idealMin (some mx) r).status = .high ↔
          value > mx) ∧
        ((createReportLine label unit value idealMin (some mx) r).status = .ok ↔
          (idealMin ≤ value ∧ value ≤ mx)) ∧
        (createReportLine label unit value idealMin (some mx) r).idealText =
          .range idealMin mx)) ∧
    (((createReportLine label unit value idealMin none false).status = .low ↔
        value < idealMin) ∧
      ((createReportLine label unit value idealMin none false).status = .ok ↔
        idealMin ≤ value) ∧
      (createReportLine label unit value idealMin none false).idealText =
        .above idealMin) ∧
    (((createReportLine label unit value idealMin none true).status = .high ↔
        value > idealMin) ∧
      ((createReportLine label unit value idealMin none true).status = .ok ↔
        value ≤ idealMin) ∧
      (createReportLine label unit value idealMin none true).idealText =
        .below idealMin) := by
  refine ⟨?_, ⟨?_, ?_, ?_⟩, ⟨?_, ?_, ?_⟩⟩
  · intro mx r hmx
    unfold createReportLine
    dsimp only
    by_cases h1 : value > mx
    · rw [if_pos h1]
      refine ⟨?_, ?_, ?_, rfl⟩ <;> constructor <;> intro h <;>
        first
          | linarith
          | simp_all
  -- the remaining branches follow the same splitting
    · rw [if_neg h1]
      by_cases h2 : value < idealMin
      · rw [if_pos h2]
        refine ⟨?_, ?_, ?_, rfl⟩ <;> constructor <;> intro h <;>
          first
            | linarith
            | simp_all
      · rw [if_neg h2]
        refine ⟨?_, ?_, ?_, rfl⟩ <;> constructor <;> intro h <;>
          first
            | linarith
            | simp_all
  · unfold createReportLine
    dsimp only
    by_cases h2 : value < idealMin <;> simp [h2]
  · unfold createReportLine
    dsimp only
    by_cases h2 : value < idealMin <;> simp [h2] <;> linarith
  · rfl
  · unfold createReportLine
    dsimp only
    by_cases h1 : value > idealMin <;> simp [h1]
  · unfold createReportLine
    dsimp only
    by_cases h1 : value > idealMin <;> simp [h1] <;> linarith
  · rfl

/-- Witness for C4: pH 5.5 against the range 6.0–6.5 reports low; aluminum
0.5 against the reversed threshold 0.3 reports high; aluminum 0.2 reports ok
(the spec's example values). -/
theorem C4_report_line_semantics_witness :
    (createReportLine "pH (CaCl2)" "" 5.5 6.0 (some 6.5) false).status = .low ∧
    (createReportLine "Aluminum (Al3+)" "cmolc" 0.5 0.3 none true).status = .high ∧
    (createReportLine "Aluminum (Al3+)" "cmolc" 0.2 0.3 none true).status = .ok :=
  ⟨((C4_report_line_semantics "pH (CaCl2)" "" 5.5 6.0).1 6.5 false
      (by norm_num)).1.mpr (by norm_num),
    ((C4_report_line_semantics "Aluminum (Al3+)" "cmolc" 0.5 0.3).2.2).1.mpr
      (by norm_num),
    ((C4_report_line_semantics "Aluminum (Al3+)" "cmolc" 0.2 0.3).2.2).2.1.mpr
      (by norm_num)⟩

/-- C5: for positive area, germination rate in (0,100] and fieldCondition in
the three recognized values, the sowing calculator returns
ceil(area * targetPopulation * (100/germinationRate) * conditionFactor) with
factor 1.00 for good, 1.05 for average, 1.10 for poor; and the example
area 10, population 110000, rate 90, condition average yields exactly
1,283,334. -/
theorem C5_seed_count :
    (∀ (a pop g : ℚ) (c : String), 0 < a → 0 < g → g ≤ 100 →
      (c = "good" ∨ c = "average" ∨ c = "poor") →
      calculateSowing (some a) (some pop) (some g) c =
        .seeds (some ⌈a * pop * (100 / g) *
          (if c = "good" then 1 else if c = "average" then 1.05 else 1.10)⌉)) ∧
    calculateSowing (some 10) (some 110000) (some 90) "average" =
      .seeds (some 1283334) := by
  constructor
  · intro a pop g c ha hg hg100 hc
    have hne : ¬ (a = 0 ∨ g = 0) := by
      push_neg
      exact ⟨ne_of_gt ha, ne_of_gt hg⟩
    rcases hc with rfl | rfl | rfl <;>
      simp only [calculateSowing] <;> rw [if_neg hne] <;> rfl
  · simp only [calculateSowing]
    rw [if_neg (by norm_num)]
    have hcf : conditionFactor "average" = 1.05 := rfl
    have hc : ⌈(10 : ℚ) * 110000 * (100 / 90) * conditionFactor "average"⌉ =
        (1283334 : ℤ) := by
      have hv : (10 : ℚ) * 110000 * (100 / 90) * conditionFactor "average" =
          3850000 / 3 := by
        rw [hcf]
        norm_num
      rw [hv, Int.ceil_eq_iff]
      norm_num
    rw [hc]

/-- Witness for C5 at the spec's example input. -/
theorem C5_seed_count_witness :
    calculateSowing (some 10) (some 110000) (some 90) "average" =
      .seeds (some ⌈(10 : ℚ) * 110000 * (100 / 90) *
        (if ("average" : String) = "good" then 1
          else if ("average" : String) = "average" then 1.05 else 1.10)⌉) :=
  C5_seed_count.1 10 110000 90 "average" (by norm_num) (by norm_num)
    (by norm_num) (Or.inr (Or.inl rfl))

/-- C6: if any of the eleven required nutrient inputs is absent or
non-numeric (modelled as a `none` parse result), the analyzer fails with the
all-or-nothing error outcome and produces no report lines at all. -/
theorem C6_soil_all_or_nothing (ideal : IdealSoil) (i : SoilInputs)
    (h : i.ph = none ∨ i.v = none ∨ i.al = none ∨ i.p = none ∨ i.k = none ∨
      i.ca = none ∨ i.mg = none ∨ i.s = none ∨ i.b = none ∨ i.zn = none ∨
      i.n = none) :
    analyzeSoil ideal i =
      .error "Please select a variety and enter valid values in all fields." := by
  unfold analyzeSoil
  have hb : hasInvalidInput i = true := by
    unfold hasInvalidInput
    rcases h with h | h | h | h | h | h | h | h | h | h | h <;> simp [h]
  simp [hb]

/-- Witness for C6: the TMG 84 ideal table with the pH measurement missing. -/
theorem C6_soil_all_or_nothing_witness :
    analyzeSoil tmg84Soil ⟨none, some 60, some 0.2, some 20, some 150,
        some 2.5, some 0.8, some 10, some 0.5, some 1.2, some 100⟩ =
      .error "Please select a variety and enter valid values in all fields." :=
  C6_soil_all_or_nothing tmg84Soil _ (Or.inl rfl)

/-- C8 counterexample: germinationRatePercent = 150 (> 100) is not rejected:
the handler passes its falsy-only guard and produces the seed count 733,334
instead of an InvalidInputError. -/
theorem C8_invalid_input_counterexample :
    calculateSowing (some 10) (some 110000) (some 150) "good" =
      .seeds (some 733334) := by
  simp only [calculateSowing]
  rw [if_neg (by norm_num)]
  have hcf : conditionFactor "good" = 1 := rfl
  have hc : ⌈(10 : ℚ) * 110000 * (100 / 150) * conditionFactor "good"⌉ =
      (733334 : ℤ) := by
    have hv : (10 : ℚ) * 110000 * (100 / 150) * conditionFactor "good" =
        2200000 / 3 := by
      rw [hcf]
      norm_num
    rw [hv, Int.ceil_eq_iff]
    norm_num
  rw [hc]

/-- C8 amended: the guard is JavaScript falsiness only — the calculator
errors exactly when area or germinationRate parses to 0 or NaN; negative
area, germination rates above 100 and negative rates all pass the guard and
produce a seed count, and a missing targetPopulation yields a NaN count
(displayed, not an error). -/
theorem C8_invalid_input :
    (∀ (area pop germ : Option ℚ) (c : String),
      (calculateSowing area pop germ c).isErr =
        (decide (area.getD 0 = 0) || decide (germ.getD 0 = 0))) ∧
    (∀ (a g : ℚ) (c : String),
      calculateSowing (some a) none (some g) c =
        if a = 0 ∨ g = 0 then .error "Please fill in all fields correctly."
        else .seeds none) := by
  constructor
  · intro area pop germ c
    cases area with
    | none => simp [calculateSowing, SowingOutcome.isErr]
    | some a =>
      cases germ with
      | none => simp [calculateSowing, SowingOutcome.isErr]
      | some g =>
        by_cases ha : a = 0
        · simp [calculateSowing, SowingOutcome.isErr, ha]
        · by_cases hg : g = 0
          · simp [calculateSowing, SowingOutcome.isErr, ha, hg]
          · cases pop <;> simp [calculateSowing, SowingOutcome.isErr, ha, hg]
  · intro a g c
    unfold calculateSowing
    by_cases h : a = 0 ∨ g = 0 <;> simp [h]

/-- C10: every fieldCondition other than "average" and "poor" — arbitrary
strings included — falls through to the initial conditionFactor 1.0, so the
seed count equals the good-condition result; the condition value is never
rejected. -/
theorem C10_condition_fallthrough (area pop germ : Option ℚ) (c : String)
    (h1 : c ≠ "average") (h2 : c ≠ "poor") :
    calculateSowing area pop germ c = calculateSowing area pop germ "good" := by
  have hf : conditionFactor c = conditionFactor "good" := by
    unfold conditionFactor
    rw [if_neg h1, if_neg h2]
    rfl
  cases area with
  | none => rfl
  | some a =>
    cases germ with
    | none => rfl
    | some g =>
      by_cases h : a = 0 ∨ g = 0
      · simp [calculateSowing, h]
      · cases pop <;> simp [calculateSowing, h, hf]

/-- Witness for C10: the unrecognized condition string "excellent". -/
theorem C10_condition_fallthrough_witness :
    calculateSowing (some 10) (some 110000) (some 90) "excellent" =
      calculateSowing (some 10) (some 110000) (some 90) "good" :=
  C10_condition_fallthrough (some 10) (some 110000) (some 90) "excellent"
    (by decide) (by decide)

end AgriPlanum
